import Mathlib

/-!
Verification development for fawrap (src/fawrap.c), an LD_PRELOAD shim that
exposes a byte-range window of one target file as if it were a whole file.

The C code is shallowly embedded: machine integers (int, off_t, off64_t)
become Lean Int, size_t becomes Nat, C strings become Lean String, and the
real (dlsym-resolved) implementation of each intercepted call becomes an
oracle function parameter.  Fatal paths (exit(1)) are modelled by the
`Outcome.fatal` constructor.  The diagnostic sink (dprint, fawrap.log) has
no effect on any returned value or on the registry, so it is not modelled.
Signed 64-bit overflow is undefined behaviour in the source; the embedding
uses unbounded Int and theorems carry explicit representability bounds
where the claim needs them.
-/

namespace Fawrap

/-- Capacity of the descriptor table, MAX_FD in the source. -/
def MAX_FD : Nat := 16

/-- The errno value EINVAL (22), which the source also returns as a plain value. -/
def EINVAL : Int := 22

/-- The errno value ENOSPC (28), which the source also returns as a plain value. -/
def ENOSPC : Int := 28

/-- The whence constant SEEK_SET (0). -/
def SEEK_SET : Int := 0

/-- Window configuration: the globals target_name, segment_offset, segment_len
of fawrap.c, set once by init and immutable afterwards. -/
structure Window where
  target_name : String
  segment_offset : Int
  segment_len : Int
deriving DecidableEq

/-- The descriptor table target_fd: a list of MAX_FD slots, value 0 marking an
empty slot (the source initialises every slot to 0). -/
abbrev Registry := List Int

/-- Result of an operation that can call exit(1): fatal models process
termination, ok carries the value the wrapper returns. -/
inductive Outcome (α : Type) where
  | fatal : Outcome α
  | ok : α → Outcome α
deriving DecidableEq

/-- Return value of a seek wrapper together with the errno value the wrapper
itself wrote (none when the wrapper leaves errno untouched). -/
structure CallRet where
  ret : Int
  errnoSet : Option Int
deriving DecidableEq

/-- Metadata structure (struct stat / struct stat64): the size field the
wrappers overwrite, two representative pass-through fields, and an opaque
residue standing for all remaining fields. -/
structure StatBuf where
  st_size : Int
  st_mode : Int
  st_mtime : Int
  rest : Nat
deriving DecidableEq

/-- check_name of fawrap.c: strcmp(path, target_name) == 0. -/
def check_name (w : Window) (path : String) : Bool :=
  path = w.target_name

/-- check_fd of fawrap.c: linear scan of the table for an equal slot value. -/
def check_fd (reg : Registry) (fd : Int) : Bool :=
  match reg with
  | [] => false
  | x :: rest => if fd = x then true else check_fd rest fd

/-- add_fd of fawrap.c: store fd in the first slot holding 0 and report false;
report true (table full) when no slot holds 0.  Returns the flag together
with the updated table. -/
def add_fd (reg : Registry) (fd : Int) : Bool × Registry :=
  match reg with
  | [] => (true, [])
  | x :: rest =>
    if x = 0 then (false, fd :: rest)
    else
      let r := add_fd rest fd
      (r.1, x :: r.2)

/-- remove_fd of fawrap.c: zero the first slot equal to fd; exit(1) when fd is
in no slot. -/
def remove_fd (reg : Registry) (fd : Int) : Outcome Registry :=
  match reg with
  | [] => .fatal
  | x :: rest =>
    if fd = x then .ok (0 :: rest)
    else
      match remove_fd rest fd with
      | .fatal => .fatal
      | .ok r => .ok (x :: r)

/-- The open wrapper of fawrap.c (also the body shared by open64 and
__open64_2 below): res is the value returned by the real open (p_open); when
the path matches the target add_fd(res) runs unconditionally — the source
does not test res for failure — and a full table is exit(1). -/
def fawrap_open (w : Window) (reg : Registry) (path : String) (res : Int) :
    Outcome (Int × Registry) :=
  if check_name w path then
    let r := add_fd reg res
    if r.1 then .fatal else .ok (res, r.2)
  else
    .ok (res, reg)

/-- The open64 wrapper of fawrap.c; identical registry logic to open. -/
def fawrap_open64 (w : Window) (reg : Registry) (path : String) (res : Int) :
    Outcome (Int × Registry) :=
  if check_name w path then
    let r := add_fd reg res
    if r.1 then .fatal else .ok (res, r.2)
  else
    .ok (res, reg)

/-- The __open64_2 wrapper of fawrap.c; identical registry logic to open. -/
def fawrap_open64_2 (w : Window) (reg : Registry) (path : String) (res : Int) :
    Outcome (Int × Registry) :=
  if check_name w path then
    let r := add_fd reg res
    if r.1 then .fatal else .ok (res, r.2)
  else
    .ok (res, reg)

/-- The close wrapper of fawrap.c: res is the real close result; a tracked
descriptor is removed afterwards regardless of res. -/
def fawrap_close (reg : Registry) (fd : Int) (res : Int) :
    Outcome (Int × Registry) :=
  if check_fd reg fd then
    match remove_fd reg fd with
    | .fatal => .fatal
    | .ok r => .ok (res, r)
  else
    .ok (res, reg)

/-- The lseek wrapper of fawrap.c.  real is the oracle p_lseek applied to the
(possibly translated) offset and the whence argument.  The source tests
check_fd twice on the unchanged table, so the two blocks are merged here.
Mirrored faithfully: a non-SEEK_SET whence on a tracked descriptor is
exit(1); a tracked offset beyond segment_len returns the value EINVAL
without touching errno and without calling the oracle; after delegation a
result differing from the requested absolute offset sets errno = EINVAL and
res = -1, and segment_offset is then subtracted unconditionally. -/
def fawrap_lseek (w : Window) (reg : Registry) (real : Int → Int → Int)
    (fd offsetArg whence : Int) : Outcome CallRet :=
  if check_fd reg fd then
    if whence ≠ SEEK_SET then .fatal
    else if offsetArg > w.segment_len then .ok ⟨EINVAL, none⟩
    else
      let offset_new := offsetArg + w.segment_offset
      let res0 := real offset_new whence
      let res1 := if res0 ≠ offset_new then (-1 : Int) else res0
      let e : Option Int := if res0 ≠ offset_new then some EINVAL else none
      .ok ⟨res1 - w.segment_offset, e⟩
  else
    .ok ⟨real offsetArg whence, none⟩

/-- The lseek64 wrapper of fawrap.c; same logic as lseek at off64_t type. -/
def fawrap_lseek64 (w : Window) (reg : Registry) (real : Int → Int → Int)
    (fd offsetArg whence : Int) : Outcome CallRet :=
  if check_fd reg fd then
    if whence ≠ SEEK_SET then .fatal
    else if offsetArg > w.segment_len then .ok ⟨EINVAL, none⟩
    else
      let offset_new := offsetArg + w.segment_offset
      let res0 := real offset_new whence
      let res1 := if res0 ≠ offset_new then (-1 : Int) else res0
      let e : Option Int := if res0 ≠ offset_new then some EINVAL else none
      .ok ⟨res1 - w.segment_offset, e⟩
  else
    .ok ⟨real offsetArg whence, none⟩

/-- The __xstat wrapper of fawrap.c: delegate to the oracle p___xstat with the
original version and path arguments, then overwrite st_size with segment_len
unconditionally (the source has no check_name gate around the overwrite). -/
def fawrap_xstat (w : Window) (real : Int → String → Int × StatBuf)
    (x : Int) (path : String) : Int × StatBuf :=
  let r := real x path
  (r.1, { r.2 with st_size := w.segment_len })

/-- The __xstat64 wrapper of fawrap.c: same unconditional st_size overwrite. -/
def fawrap_xstat64 (w : Window) (real : Int → String → Int × StatBuf)
    (x : Int) (path : String) : Int × StatBuf :=
  let r := real x path
  (r.1, { r.2 with st_size := w.segment_len })

/-- The fstat wrapper of fawrap.c: delegate to p_fstat on the original fd,
then overwrite st_size with (off_t) segment_len unconditionally (no check_fd
gate; the off_t cast is the identity in this LP64 embedding). -/
def fawrap_fstat (w : Window) (real : Int → Int × StatBuf)
    (fd : Int) : Int × StatBuf :=
  let r := real fd
  (r.1, { r.2 with st_size := w.segment_len })

/-- The fstat64 wrapper of fawrap.c: same unconditional st_size overwrite. -/
def fawrap_fstat64 (w : Window) (real : Int → Int × StatBuf)
    (fd : Int) : Int × StatBuf :=
  let r := real fd
  (r.1, { r.2 with st_size := w.segment_len })

/-- The __fxstat64 wrapper of fawrap.c: delegate to p___fxstat64 with the
original version and fd, then overwrite st_size unconditionally. -/
def fawrap_fxstat64 (w : Window) (real : Int → Int → Int × StatBuf)
    (vers fd : Int) : Int × StatBuf :=
  let r := real vers fd
  (r.1, { r.2 with st_size := w.segment_len })

/-- The fallocate wrapper of fawrap.c: on a tracked descriptor an offset
beyond segment_len returns the value ENOSPC without delegating; otherwise
the offset is shifted by segment_offset and mode and len pass unchanged. -/
def fawrap_fallocate (w : Window) (reg : Registry) (real : Int → Int → Int → Int)
    (fd mode offsetArg len : Int) : Int :=
  if check_fd reg fd then
    if offsetArg > w.segment_len then ENOSPC
    else real mode (offsetArg + w.segment_offset) len
  else
    real mode offsetArg len

/-- The pread64 wrapper of fawrap.c: real is the oracle p_pread64 applied to
the original count and the (possibly translated) offset; on a tracked
descriptor an offset beyond segment_len returns the value ENOSPC without
delegating. -/
def fawrap_pread64 (w : Window) (reg : Registry) (real : Nat → Int → Int)
    (fd : Int) (count : Nat) (offsetArg : Int) : Int :=
  if check_fd reg fd then
    if offsetArg > w.segment_len then ENOSPC
    else real count (offsetArg + w.segment_offset)
  else
    real count offsetArg

/-- The pwrite64 wrapper of fawrap.c: like pread64 but the out-of-bounds
return value is EINVAL. -/
def fawrap_pwrite64 (w : Window) (reg : Registry) (real : Nat → Int → Int)
    (fd : Int) (count : Nat) (offsetArg : Int) : Int :=
  if check_fd reg fd then
    if offsetArg > w.segment_len then EINVAL
    else real count (offsetArg + w.segment_offset)
  else
    real count offsetArg

/-- Whitespace test of C isspace, as consulted by strtoull. -/
def isSpaceC (c : Char) : Bool :=
  c = ' ' || c = '\t' || c = '\n' || c = '\r' || c = '\x0b' || c = '\x0c'

/-- Longest decimal-digit run: accumulate the value, stop at the first
non-digit (strtoull consumes exactly this after sign handling). -/
def parseDigits : List Char → Nat → Nat
  | c :: rest, acc =>
    if c.isDigit then parseDigits rest (acc * 10 + (c.toNat - 48)) else acc
  | [], acc => acc

/-- strtoull(s, NULL, 10) as used by init: skip whitespace, optional sign,
then the value of the longest digit run — 0 when there is none, with no
error indication.  Values reduce modulo 2^64 in this model. -/
def strtoull10 (s : List Char) : Nat :=
  let cs := s.dropWhile isSpaceC
  match cs with
  | '-' :: rest => (2 ^ 64 - parseDigits rest 0 % 2 ^ 64) % 2 ^ 64
  | '+' :: rest => parseDigits rest 0 % 2 ^ 64
  | _ => parseDigits cs 0 % 2 ^ 64

/-- Conversion of the unsigned 64-bit strtoull result to the signed off64_t
globals segment_offset / segment_len. -/
def toOff64 (n : Nat) : Int :=
  if n < 2 ^ 63 then (n : Int) else (n : Int) - 2 ^ 64

/-- strtok(·, ",") token stream: maximal runs of non-comma characters, so
consecutive commas yield no empty tokens and an all-comma or empty string
yields no tokens at all. -/
def tokAux (cs : List Char) (cur : List Char) : List (List Char) :=
  match cs with
  | [] => if cur = [] then [] else [cur.reverse]
  | c :: rest =>
    if c = ',' then
      if cur = [] then tokAux rest [] else cur.reverse :: tokAux rest []
    else
      tokAux rest (c :: cur)

/-- The comma-separated tokens of the FILE descriptor string. -/
def tokens (s : String) : List String :=
  (tokAux s.data []).map (fun cs => String.mk cs)

/-- Result of init: fatal models exit(1); ok carries the parsed window and
the resulting debug level. -/
inductive InitResult where
  | fatal : InitResult
  | ok : Window → Nat → InitResult
deriving DecidableEq

/-- Debug level from the optional fourth token: d is LOG_DBG (4), i is
LOG_INFO (3), anything else leaves the default LOG_ERR (2). -/
def modeLevel (rest : List String) : Nat :=
  match rest with
  | [] => 2
  | m :: _ => if m = "d" then 4 else if m = "i" then 3 else 2

/-- Parsing part of init given the strtok token stream: fewer than three
tokens means a NULL from strtok at the offset or length field and exit(1);
otherwise offset and length come from strtoull with no numeric validation. -/
def initTokens (ts : List String) : InitResult :=
  match ts with
  | name :: off :: len :: rest =>
    .ok
      { target_name := name,
        segment_offset := toOff64 (strtoull10 off.data),
        segment_len := toOff64 (strtoull10 len.data) }
      (modeLevel rest)
  | _ => .fatal

/-- init of fawrap.c restricted to configuration parsing: a missing FILE
environment variable is exit(1), otherwise the descriptor is tokenised by
strtok and parsed.  The dlsym plumbing and the opening of the diagnostic
log file (which can itself exit when fopen fails at debug level ≥ 3) are
outside the parsing model. -/
def init (env : Option String) : InitResult :=
  match env with
  | none => .fatal
  | some args => initTokens (tokens args)

/-- Well-formed window, the invariant of the spec data model: nonnegative
base, positive length, and base + length representable as a signed 64-bit
offset, so that no translated offset overflows off64_t. -/
abbrev wf (w : Window) : Prop :=
  0 ≤ w.segment_offset ∧ 0 < w.segment_len ∧
  w.segment_offset + w.segment_len < 2 ^ 63

/-- Example target path used throughout the concrete instances. -/
def pathDisk : String := "disk.img"

/-- Example path distinct from the target. -/
def pathOther : String := "other.img"

/-- Example window from the spec scenario: base 44040192, length 33554944. -/
def w0 : Window :=
  { target_name := pathDisk, segment_offset := 44040192, segment_len := 33554944 }

/-- Example window with a small base, for seek-mismatch instances. -/
def wB : Window :=
  { target_name := pathDisk, segment_offset := 10, segment_len := 100 }

/-- The registry as init leaves it: every slot empty (0). -/
def reg0 : Registry := List.replicate MAX_FD 0

/-- A registry tracking exactly descriptor 5. -/
def reg5 : Registry := 5 :: List.replicate 15 0

/-- A registry at capacity: sixteen distinct tracked descriptors. -/
def regFull : Registry :=
  [1, 2, 3, 4, 5, 6, 7, 8, 9, 10, 11, 12, 13, 14, 15, 16]

/-- Example FILE descriptor string with a non-numeric offset field. -/
def exStr : String := "disk.img,abc,5"

/-- Oracle for a real seek that lands exactly where asked. -/
def seekEcho : Int → Int → Int := fun a _ => a

/-- Oracle for a real pread64/pwrite64 that reports the absolute offset it
was handed, making the delegated offset observable. -/
def rwOracle : Nat → Int → Int := fun _ a => a

/-- Oracle for a real fallocate that reports the absolute offset it was
handed. -/
def allocOracle : Int → Int → Int → Int := fun _ a _ => a

/-- Oracle for a real path-based stat reporting size 100 and fixed values in
the pass-through fields. -/
def statOracleP : Int → String → Int × StatBuf := fun _ _ => (0, ⟨100, 1, 2, 3⟩)

/-- Oracle for a real fd-based stat reporting size 100. -/
def statOracleF : Int → Int × StatBuf := fun _ => (0, ⟨100, 1, 2, 3⟩)

/-- Oracle for a real versioned fd-based stat reporting size 100. -/
def statOracleFx : Int → Int → Int × StatBuf := fun _ _ => (0, ⟨100, 1, 2, 3⟩)

/-- Membership in the table makes check_fd succeed (scan order is
irrelevant to the boolean outcome). -/
theorem check_fd_of_mem (reg : Registry) (fd : Int) (h : fd ∈ reg) :
    check_fd reg fd = true := by
  induction reg with
  | nil => simp at h
  | cons x rest ih =>
    unfold check_fd
    by_cases hx : fd = x
    · simp [hx]
    · rcases List.mem_cons.mp h with h1 | h1
      · exact absurd h1 hx
      · simp [hx, ih h1]

/-- When add_fd does not report a full table, the inserted value is a member
of the updated table. -/
theorem add_fd_mem (reg : Registry) (fd : Int) (h : (add_fd reg fd).1 = false) :
    fd ∈ (add_fd reg fd).2 := by
  induction reg with
  | nil => simp [add_fd] at h
  | cons x rest ih =>
    unfold add_fd
    by_cases hx : x = 0
    · simp [hx]
    · unfold add_fd at h
      simp only [if_neg hx] at h ⊢
      exact List.mem_cons_of_mem x (ih h)

/-- When no slot holds the empty marker 0, add_fd reports a full table. -/
theorem add_fd_full (reg : Registry) (fd : Int) (h : ∀ x ∈ reg, x ≠ 0) :
    (add_fd reg fd).1 = true := by
  induction reg with
  | nil => rfl
  | cons x rest ih =>
    unfold add_fd
    have hx : x ≠ 0 := h x (List.mem_cons_self x rest)
    simp only [if_neg hx]
    exact ih fun y hy => h y (List.mem_cons_of_mem x hy)

/-- C1 counterexample: a status query on a path that is not the target is
not a pure pass-through — the size field of the returned metadata is
overwritten with segment_len (33554944) although the real query reported
size 100, because the source applies the overwrite unconditionally. -/
theorem c1_stat_counterexample :
    check_name w0 pathOther = false ∧
    (fawrap_xstat w0 statOracleP 1 pathOther).2.st_size = 33554944 ∧
    (statOracleP 1 pathOther).2.st_size = 100 ∧
    (33554944 : Int) ≠ 100 := by
  decide

/-- C1 (amended): for status queries whose trigger does not match (non-target
path, untracked descriptor), the real query is still delegated with
unmodified arguments, its return code and every field other than the size
pass through unchanged, but the size field is nonetheless overwritten with
window.length — in all five variants the overwrite is not gated on the
trigger. -/
theorem c1_stat_nonmatching_overwrites_size (w : Window)
    (realP realP64 : Int → String → Int × StatBuf)
    (realF realF64 : Int → Int × StatBuf) (realFx : Int → Int → Int × StatBuf)
    (reg : Registry) (x vers fd : Int) (path : String)
    (hname : check_name w path = false) (hfd : check_fd reg fd = false) :
    fawrap_xstat w realP x path
      = ((realP x path).1, { (realP x path).2 with st_size := w.segment_len }) ∧
    fawrap_xstat64 w realP64 x path
      = ((realP64 x path).1, { (realP64 x path).2 with st_size := w.segment_len }) ∧
    fawrap_fstat w realF fd
      = ((realF fd).1, { (realF fd).2 with st_size := w.segment_len }) ∧
    fawrap_fstat64 w realF64 fd
      = ((realF64 fd).1, { (realF64 fd).2 with st_size := w.segment_len }) ∧
    fawrap_fxstat64 w realFx vers fd
      = ((realFx vers fd).1, { (realFx vers fd).2 with st_size := w.segment_len }) :=
  ⟨rfl, rfl, rfl, rfl, rfl⟩

/-- C1 witness: concrete non-matching instance of the amended theorem. -/
theorem c1_stat_nonmatching_witness :
    check_name w0 pathOther = false ∧ check_fd reg0 3 = false ∧
    fawrap_xstat w0 statOracleP 1 pathOther
      = ((statOracleP 1 pathOther).1,
         { (statOracleP 1 pathOther).2 with st_size := w0.segment_len }) :=
  ⟨by decide, by decide,
   (c1_stat_nonmatching_overwrites_size w0 statOracleP statOracleP statOracleF
      statOracleF statOracleFx reg0 1 1 3 pathOther (by decide) (by decide)).1⟩

/-- C2 counterexample: an intercepted open of the target path whose real open
failed (returned -1) still inserts -1 into the registry, so check_fd now
accepts -1 — the claim that a failed open adds nothing is false. -/
theorem c2_failed_open_counterexample :
    fawrap_open w0 reg0 pathDisk (-1)
      = .ok (-1, (-1) :: List.replicate 15 0) ∧
    check_fd ((-1) :: List.replicate 15 0) (-1) = true ∧
    check_fd reg0 (-1) = false := by
  decide

/-- C2 (amended): for every intercepted open-type call (open, open64,
__open64_2) whose path equals the target path, the real open's return value
is inserted into the Descriptor Registry unconditionally whenever the
registry is not full — regardless of whether the real open succeeded, so a
failed open inserts the error value -1; a full registry is fatal. -/
theorem c2_open_registers_unconditionally (w : Window) (reg : Registry)
    (path : String) (res : Int) (hpath : check_name w path = true)
    (hroom : (add_fd reg res).1 = false) :
    fawrap_open w reg path res = .ok (res, (add_fd reg res).2) ∧
    fawrap_open64 w reg path res = .ok (res, (add_fd reg res).2) ∧
    fawrap_open64_2 w reg path res = .ok (res, (add_fd reg res).2) ∧
    check_fd (add_fd reg res).2 res = true := by
  have hc := check_fd_of_mem _ res (add_fd_mem reg res hroom)
  refine ⟨?_, ?_, ?_, hc⟩ <;>
    simp [fawrap_open, fawrap_open64, fawrap_open64_2, hpath, hroom]

/-- C2 witness: concrete instance of the amended theorem with a successful
open returning descriptor 7. -/
theorem c2_open_registers_witness :
    check_name w0 pathDisk = true ∧ (add_fd reg0 7).1 = false ∧
    (fawrap_open w0 reg0 pathDisk 7 = .ok (7, (add_fd reg0 7).2) ∧
     fawrap_open64 w0 reg0 pathDisk 7 = .ok (7, (add_fd reg0 7).2) ∧
     fawrap_open64_2 w0 reg0 pathDisk 7 = .ok (7, (add_fd reg0 7).2) ∧
     check_fd (add_fd reg0 7).2 7 = true) :=
  ⟨by decide, by decide,
   c2_open_registers_unconditionally w0 reg0 pathDisk 7 (by decide) (by decide)⟩

/-- C5 counterexample: an out-of-bounds seek on a tracked descriptor returns
the positive value 22 (EINVAL) as the operation's result, with errno left
untouched — not the normal error-return channel of -1, and a caller checking
the platform convention sees an apparently successful position of 22. -/
theorem c5_oob_seek_counterexample :
    fawrap_lseek64 w0 reg5 seekEcho 5 33554945 SEEK_SET = .ok ⟨22, none⟩ ∧
    (22 : Int) ≠ -1 := by
  decide

/-- C5 (amended): a seek on a tracked descriptor to a relative offset
strictly greater than window.length is rejected without terminating the
process and without invoking the real seek (the result is the same for every
real-seek oracle, so the file position is unchanged), but the rejection is
delivered by returning the value EINVAL (22) directly as the operation's
result with errno untouched, not via the normal -1/errno error channel. -/
theorem c5_oob_seek_returns_einval (w : Window) (reg : Registry)
    (real : Int → Int → Int) (fd o : Int)
    (hfd : check_fd reg fd = true) (ho : w.segment_len < o) :
    fawrap_lseek64 w reg real fd o SEEK_SET = .ok ⟨EINVAL, none⟩ ∧
    fawrap_lseek w reg real fd o SEEK_SET = .ok ⟨EINVAL, none⟩ := by
  constructor <;> simp [fawrap_lseek64, fawrap_lseek, hfd, ho]

/-- C5 witness: the spec scenario — seeking one byte past the window length
of 33554944 on tracked descriptor 5. -/
theorem c5_oob_seek_witness :
    check_fd reg5 5 = true ∧ w0.segment_len < 33554945 ∧
    (fawrap_lseek64 w0 reg5 seekEcho 5 33554945 SEEK_SET = .ok ⟨EINVAL, none⟩ ∧
     fawrap_lseek w0 reg5 seekEcho 5 33554945 SEEK_SET = .ok ⟨EINVAL, none⟩) :=
  ⟨by decide, by decide,
   c5_oob_seek_returns_einval w0 reg5 seekEcho 5 33554945 (by decide) (by decide)⟩

/-- C7 (confirmed): every status query against the target path or a tracked
descriptor delegates to the real query and overwrites the reported size with
window.length regardless of the real size, while the return code and all
other fields pass through unchanged. -/
theorem c7_size_override (w : Window) (reg : Registry)
    (realP : Int → String → Int × StatBuf) (realFx : Int → Int → Int × StatBuf)
    (x vers fd : Int) (path : String)
    (hname : check_name w path = true) (hfd : check_fd reg fd = true) :
    ((fawrap_xstat64 w realP x path).1 = (realP x path).1 ∧
     (fawrap_xstat64 w realP x path).2.st_size = w.segment_len ∧
     (fawrap_xstat64 w realP x path).2.st_mode = (realP x path).2.st_mode ∧
     (fawrap_xstat64 w realP x path).2.st_mtime = (realP x path).2.st_mtime ∧
     (fawrap_xstat64 w realP x path).2.rest = (realP x path).2.rest) ∧
    ((fawrap_fxstat64 w realFx vers fd).1 = (realFx vers fd).1 ∧
     (fawrap_fxstat64 w realFx vers fd).2.st_size = w.segment_len ∧
     (fawrap_fxstat64 w realFx vers fd).2.st_mode = (realFx vers fd).2.st_mode ∧
     (fawrap_fxstat64 w realFx vers fd).2.st_mtime = (realFx vers fd).2.st_mtime ∧
     (fawrap_fxstat64 w realFx vers fd).2.rest = (realFx vers fd).2.rest) :=
  ⟨⟨rfl, rfl, rfl, rfl, rfl⟩, ⟨rfl, rfl, rfl, rfl, rfl⟩⟩

/-- C7 witness: target path and tracked descriptor 5, real size 100,
reported size 33554944. -/
theorem c7_size_override_witness :
    check_name w0 pathDisk = true ∧ check_fd reg5 5 = true ∧
    (fawrap_xstat64 w0 statOracleP 1 pathDisk).2.st_size = w0.segment_len ∧
    (fawrap_fxstat64 w0 statOracleFx 1 5).2.st_size = w0.segment_len :=
  ⟨by decide, by decide,
   (c7_size_override w0 reg5 statOracleP statOracleFx 1 1 5 pathDisk
      (by decide) (by decide)).1.2.1,
   (c7_size_override w0 reg5 statOracleP statOracleFx 1 1 5 pathDisk
      (by decide) (by decide)).2.2.1⟩

/-- C8 (confirmed): when every slot of the registry is occupied (sixteen
tracked descriptors), an intercepted open of the target path is fatal — the
process terminates instead of returning an untracked descriptor. -/
theorem c8_registry_full_fatal (w : Window) (reg : Registry) (path : String)
    (res : Int) (hlen : reg.length = MAX_FD) (hfull : ∀ x ∈ reg, x ≠ 0)
    (hpath : check_name w path = true) :
    fawrap_open w reg path res = .fatal := by
  simp [fawrap_open, hpath, add_fd_full reg res hfull]

/-- C8 witness: a seventeenth open of the target path against a registry
holding descriptors 1 through 16 is fatal. -/
theorem c8_registry_full_witness :
    regFull.length = MAX_FD ∧ (∀ x ∈ regFull, x ≠ 0) ∧
    check_name w0 pathDisk = true ∧
    fawrap_open w0 regFull pathDisk 17 = .fatal :=
  ⟨by decide, by decide, by decide,
   c8_registry_full_fatal w0 regFull pathDisk 17 (by decide) (by decide) (by decide)⟩

/-- C9 (confirmed): a positioned read or write on a tracked descriptor at a
relative offset o ≤ window.length (boundary included) delegates at absolute
offset o + base with the original count, and returns exactly what the real
operation returns — no adjustment and no clamping of the count. -/
theorem c9_positioned_rw_delegation (w : Window) (reg : Registry)
    (realR realW : Nat → Int → Int) (fd o : Int) (c : Nat)
    (hfd : check_fd reg fd = true) (ho : o ≤ w.segment_len) :
    fawrap_pread64 w reg realR fd c o = realR c (o + w.segment_offset) ∧
    fawrap_pwrite64 w reg realW fd c o = realW c (o + w.segment_offset) := by
  constructor <;>
    simp [fawrap_pread64, fawrap_pwrite64, hfd, not_lt.mpr ho]

/-- C9 witness: positioned access at the boundary offset o = length is
forwarded at absolute base + length with count 512 intact. -/
theorem c9_positioned_rw_witness :
    check_fd reg5 5 = true ∧ w0.segment_len ≤ w0.segment_len ∧
    (fawrap_pread64 w0 reg5 rwOracle 5 512 w0.segment_len
       = rwOracle 512 (w0.segment_len + w0.segment_offset) ∧
     fawrap_pwrite64 w0 reg5 rwOracle 5 512 w0.segment_len
       = rwOracle 512 (w0.segment_len + w0.segment_offset)) :=
  ⟨by decide, le_refl _,
   c9_positioned_rw_delegation w0 reg5 rwOracle rwOracle 5 w0.segment_len 512
     (by decide) (le_refl _)⟩

/-- C10 (confirmed): since empty slots hold the raw value 0, the membership
test accepts descriptor 0 whenever at least one slot is free — in particular
on the freshly initialised registry where nothing was ever registered — and
a descriptor-based operation on fd 0 is then offset-translated as if it were
tracked. -/
theorem c10_check_fd_zero (w : Window) (reg : Registry) (real : Nat → Int → Int)
    (c : Nat) (o : Int) (hfree : (0 : Int) ∈ reg) (ho : o ≤ w.segment_len) :
    check_fd reg 0 = true ∧
    fawrap_pread64 w reg real 0 c o = real c (o + w.segment_offset) := by
  have hc := check_fd_of_mem reg 0 hfree
  exact ⟨hc, by simp [fawrap_pread64, hc, not_lt.mpr ho]⟩

/-- C10 witness: on the all-empty initial registry, fd 0 is treated as
tracked and a pread at relative offset 0 is delegated at the window base. -/
theorem c10_check_fd_zero_witness :
    (0 : Int) ∈ reg0 ∧ (0 : Int) ≤ w0.segment_len ∧
    (check_fd reg0 0 = true ∧
     fawrap_pread64 w0 reg0 rwOracle 0 4096 0 = rwOracle 4096 (0 + w0.segment_offset)) :=
  ⟨by decide, by decide,
   c10_check_fd_zero w0 reg0 rwOracle 4096 0 (by decide) (by decide)⟩

/-- C3 counterexample: a tracked in-bounds seek whose real result (999) does
not equal the requested absolute offset (10) does set errno to EINVAL and
res to -1, but the base-offset subtraction is applied unconditionally, so
the caller receives -11 — not the error return -1 of the seek convention. -/
theorem c3_seek_mismatch_counterexample :
    check_fd reg5 5 = true ∧ (0 : Int) ≤ wB.segment_len ∧
    fawrap_lseek wB reg5 (fun _ _ => 999) 5 0 SEEK_SET
      = .ok ⟨-11, some EINVAL⟩ ∧
    (-11 : Int) ≠ -1 := by
  decide

/-- C3 (amended): for a seek (lseek, lseek64) on a tracked descriptor with
in-bounds offset o, the offset is translated to absolute o + base and the
real seek is delegated to; when the real result equals the requested
absolute offset the caller receives o (the window-relative position, result
minus base); when it differs, errno is set to EINVAL and the internal result
to -1, but the base subtraction is still applied, so the caller receives
-1 - base rather than the error return -1. -/
theorem c3_seek_result_translation (w : Window) (reg : Registry)
    (real real64 : Int → Int → Int) (fd o : Int)
    (hfd : check_fd reg fd = true) (ho : o ≤ w.segment_len) :
    fawrap_lseek w reg real fd o SEEK_SET
      = (if real (o + w.segment_offset) SEEK_SET = o + w.segment_offset
         then .ok ⟨o, none⟩
         else .ok ⟨-1 - w.segment_offset, some EINVAL⟩) ∧
    fawrap_lseek64 w reg real64 fd o SEEK_SET
      = (if real64 (o + w.segment_offset) SEEK_SET = o + w.segment_offset
         then .ok ⟨o, none⟩
         else .ok ⟨-1 - w.segment_offset, some EINVAL⟩) := by
  constructor
  · simp only [fawrap_lseek, hfd, if_true, ne_eq, not_true_eq_false, if_false,
      not_lt.mpr ho]
    by_cases hr : real (o + w.segment_offset) SEEK_SET = o + w.segment_offset
    · simp [hr]
    · simp [hr]
  · simp only [fawrap_lseek64, hfd, if_true, ne_eq, not_true_eq_false, if_false,
      not_lt.mpr ho]
    by_cases hr : real64 (o + w.segment_offset) SEEK_SET = o + w.segment_offset
    · simp [hr]
    · simp [hr]

/-- C3 witness: a successful in-bounds seek to relative 0 on the spec
scenario window lands at absolute 44040192 and reports relative 0. -/
theorem c3_seek_result_witness :
    check_fd reg5 5 = true ∧ (0 : Int) ≤ w0.segment_len ∧
    (fawrap_lseek w0 reg5 seekEcho 5 0 SEEK_SET
       = (if seekEcho (0 + w0.segment_offset) SEEK_SET = 0 + w0.segment_offset
          then .ok ⟨0, none⟩
          else .ok ⟨-1 - w0.segment_offset, some EINVAL⟩) ∧
     fawrap_lseek64 w0 reg5 seekEcho 5 0 SEEK_SET
       = (if seekEcho (0 + w0.segment_offset) SEEK_SET = 0 + w0.segment_offset
          then .ok ⟨0, none⟩
          else .ok ⟨-1 - w0.segment_offset, some EINVAL⟩)) :=
  ⟨by decide, by decide,
   c3_seek_result_translation w0 reg5 seekEcho seekEcho 5 0 (by decide) (by decide)⟩

/-- C4 counterexample: the descriptor string with non-numeric offset field
abc does not terminate the process — strtoull silently yields 0 and init
produces (and the process then uses) the degraded configuration with
offset 0, so the claim that non-numeric fields are fatal is false. -/
theorem c4_nonnumeric_counterexample :
    init (some exStr) = .ok { target_name := pathDisk,
                              segment_offset := 0, segment_len := 5 } 2 ∧
    init (some exStr) ≠ .fatal := by
  decide

/-- C4 (amended): configuration parsing terminates fatally exactly when the
environment descriptor is absent or it contains fewer than three
comma-separated fields (path, offset, length); a non-numeric offset or
length field is not detected — strtoull yields the value of its numeric
prefix, 0 when there is none, without any error, and that configuration is
used. -/
theorem c4_init_fatal_characterisation :
    init none = InitResult.fatal ∧
    ∀ args : String, (init (some args) = .fatal ↔ (tokens args).length < 3) := by
  refine ⟨rfl, fun args => ?_⟩
  rcases h : tokens args with _ | ⟨a, _ | ⟨b, _ | ⟨c, v⟩⟩⟩ <;>
    simp [init, initTokens, h]

/-- C4 witness: the characterisation applied to the concrete three-field
descriptor with a non-numeric offset, which is accordingly not fatal. -/
theorem c4_init_fatal_witness :
    (init (some exStr) = .fatal ↔ (tokens exStr).length < 3) :=
  c4_init_fatal_characterisation.2 exStr

/-- C6 (confirmed): for a well-formed window with base B and length L and a
tracked descriptor, every relative offset 0 ≤ o ≤ L is translated to exactly
o + B in seek, positioned read/write and space allocation — the absolute
offset stays within the signed 64-bit domain, so it is never wrapped — and
every o > L takes the out-of-bounds path: a constant result, independent of
the real-operation oracle, with no altered offset delegated. -/
theorem c6_translation (w : Window) (reg : Registry)
    (realSeek : Int → Int → Int) (realR realW : Nat → Int → Int)
    (realA : Int → Int → Int → Int) (fd o m l : Int) (c : Nat)
    (hw : wf w) (hfd : check_fd reg fd = true) (h0 : 0 ≤ o) :
    (o ≤ w.segment_len →
       fawrap_pwrite64 w reg realW fd c o = realW c (o + w.segment_offset) ∧
       fawrap_pread64 w reg realR fd c o = realR c (o + w.segment_offset) ∧
       fawrap_fallocate w reg realA fd m o l = realA m (o + w.segment_offset) l ∧
       fawrap_lseek w reg realSeek fd o SEEK_SET
         = (if realSeek (o + w.segment_offset) SEEK_SET = o + w.segment_offset
            then .ok ⟨o, none⟩
            else .ok ⟨-1 - w.segment_offset, some EINVAL⟩) ∧
       0 ≤ o + w.segment_offset ∧ o + w.segment_offset < 2 ^ 63) ∧
    (w.segment_len < o →
       fawrap_pwrite64 w reg realW fd c o = EINVAL ∧
       fawrap_pread64 w reg realR fd c o = ENOSPC ∧
       fawrap_fallocate w reg realA fd m o l = ENOSPC ∧
       fawrap_lseek w reg realSeek fd o SEEK_SET = .ok ⟨EINVAL, none⟩) := by
  obtain ⟨hb, hl, hno⟩ := hw
  constructor
  · intro ho
    refine ⟨?_, ?_, ?_, ?_, ?_, ?_⟩
    · simp [fawrap_pwrite64, hfd, not_lt.mpr ho]
    · simp [fawrap_pread64, hfd, not_lt.mpr ho]
    · simp [fawrap_fallocate, hfd, not_lt.mpr ho]
    · simp only [fawrap_lseek, hfd, if_true, ne_eq, not_true_eq_false, if_false,
        not_lt.mpr ho]
      by_cases hr : realSeek (o + w.segment_offset) SEEK_SET = o + w.segment_offset
      · simp [hr]
      · simp [hr]
    · omega
    · omega
  · intro ho
    exact ⟨by simp [fawrap_pwrite64, hfd, ho],
           by simp [fawrap_pread64, hfd, ho],
           by simp [fawrap_fallocate, hfd, ho],
           by simp [fawrap_lseek, hfd, ho]⟩

/-- C6 witness: the spec scenario window, with an in-bounds instance at
relative offset 100 and an out-of-bounds instance one byte past the
length. -/
theorem c6_translation_witness :
    wf w0 ∧ check_fd reg5 5 = true ∧ (0 : Int) ≤ 100 ∧ (100 : Int) ≤ w0.segment_len ∧
    w0.segment_len < 33554945 ∧
    (fawrap_pwrite64 w0 reg5 rwOracle 5 8 100 = rwOracle 8 (100 + w0.segment_offset) ∧
     fawrap_pread64 w0 reg5 rwOracle 5 8 100 = rwOracle 8 (100 + w0.segment_offset) ∧
     fawrap_fallocate w0 reg5 allocOracle 5 0 100 16
       = allocOracle 0 (100 + w0.segment_offset) 16 ∧
     fawrap_lseek w0 reg5 seekEcho 5 100 SEEK_SET
       = (if seekEcho (100 + w0.segment_offset) SEEK_SET = 100 + w0.segment_offset
          then .ok ⟨100, none⟩
          else .ok ⟨-1 - w0.segment_offset, some EINVAL⟩) ∧
     0 ≤ (100 : Int) + w0.segment_offset ∧ (100 : Int) + w0.segment_offset < 2 ^ 63) ∧
    (fawrap_pwrite64 w0 reg5 rwOracle 5 8 33554945 = EINVAL ∧
     fawrap_pread64 w0 reg5 rwOracle 5 8 33554945 = ENOSPC ∧
     fawrap_fallocate w0 reg5 allocOracle 5 0 33554945 16 = ENOSPC ∧
     fawrap_lseek w0 reg5 seekEcho 5 33554945 SEEK_SET = .ok ⟨EINVAL, none⟩) :=
  ⟨by decide, by decide, by decide, by decide, by decide,
   (c6_translation w0 reg5 seekEcho rwOracle rwOracle allocOracle 5 100 0 16 8
      (by decide) (by decide) (by decide)).1 (by decide),
   (c6_translation w0 reg5 seekEcho rwOracle rwOracle allocOracle 5 33554945 0 16 8
      (by decide) (by decide) (by decide)).2 (by decide)⟩

end Fawrap
